import Mathlib

/-!
Verification of the FinalBoss Veto Frontier pointer-orphaning core.

The persistent schema (tables, CHECK constraints, the audit trigger and the
views) is embedded from `database/schema.sql`; the frontend API helper is
embedded from `config.js`.  The core operations (`create`, `orphan`,
`resolve`, receipt `append`, the enforcement `check`) live in the backend
crate that is not part of the source tree here, so those operations are
modelled from the specification (sections 4, 5 and 7), with the schema
constraints gating every insert the way the database would.
-/

namespace VetoFrontier

/-- Pointer lifecycle status, from
`CREATE TYPE pointer_status AS ENUM ('active', 'orphaned')` in
`database/schema.sql`. -/
inductive PointerStatus where
  | active
  | orphaned
deriving DecidableEq

/-- Receipt operation kind, from
`CREATE TYPE receipt_operation AS ENUM ('create', 'resolve', 'orphan')`. -/
inductive ReceiptOperation where
  | create
  | resolve
  | orphan
deriving DecidableEq

/-- The SQL check `length(trim(s)) > 0` used by the schema's CHECK
constraints: true iff `s` contains a character that is not whitespace. -/
def sqlNonEmpty (s : String) : Bool :=
  s.data.any (fun c => !c.isWhitespace)

/-- A row of `data_store`: the durable payload a pointer references.
Identifiers are modelled as naturals in place of UUIDs; timestamps as
naturals in place of TIMESTAMPTZ. -/
structure DataObject where
  data_id : Nat
  org_id : Nat
  subject_id : String
  content_hash : String
  encrypted_payload : Option (List Nat)
  created_at : Nat
deriving DecidableEq

/-- A row of `pointers`: the revocable handle. -/
structure Pointer where
  pointer_id : Nat
  org_id : Nat
  data_id : Nat
  subject_id : String
  status : PointerStatus
  created_at : Nat
  orphaned_at : Option Nat
  orphan_reason : Option String
deriving DecidableEq

/-- A row of `governance_receipts`: the signed, hash-chained record of one
pointer operation.  `signature` is the raw byte string (BYTEA). -/
structure Receipt where
  receipt_id : Nat
  pointer_id : Nat
  org_id : Nat
  operation : ReceiptOperation
  receipt_hash : String
  signature : List Nat
  signature_algorithm : String
  prev_hash : Option String
  timestamp : Nat
deriving DecidableEq

/-- Structured audit payload: the trigger `log_pointer_status_change` in
`database/schema.sql` builds a JSON object carrying the old status, the new
status and the orphan reason; resolution attempts record whether access was
allowed. -/
inductive AuditData where
  | statusChange (old_status new_status : PointerStatus) (orphan_reason : Option String)
  | resolution (allowed : Bool) (reason : Option String)
  | created
deriving DecidableEq

/-- A row of `audit_log`. -/
structure AuditEvent where
  org_id : Option Nat
  pointer_id : Option Nat
  receipt_id : Option Nat
  event_type : String
  event_data : AuditData
  timestamp : Nat
deriving DecidableEq

/-- The persistent store: the four relations the claims touch, in insert
order, plus a fresh-identifier counter standing in for UUID generation. -/
structure DBState where
  nextId : Nat
  dataStore : List DataObject
  pointers : List Pointer
  receipts : List Receipt
  auditLog : List AuditEvent
deriving DecidableEq

/-- The error taxonomy of spec section 7. `alreadyOrphaned` carries the
orphaning timestamp surfaced to the caller. -/
inductive VetoError where
  | validationError
  | notFound
  | alreadyOrphaned (orphaned_at : Option Nat)
  | signingFailure
  | storageFailure
deriving DecidableEq

/-- Modelled from the spec: the cryptographic primitives of section 4.2 —
a content hash over the canonical form of (operation, pointer, previous
hash, timestamp), a signing function that may fail (key unavailable), and
the algorithm tag stored alongside each signature.  The backend crate
holding the concrete SHA3-512 / ED25519 code is not in the source tree. -/
structure CryptoEnv where
  hashFn : ReceiptOperation → Nat → Option String → Nat → String
  signFn : String → Option (List Nat)
  sigAlg : String

/-- Look up a pointer row by `pointer_id` (first match, as a keyed SELECT). -/
def findPointer (s : DBState) (pid : Nat) : Option Pointer :=
  s.pointers.find? (fun p => p.pointer_id == pid)

/-- Look up a data row by `data_id`. -/
def findData (s : DBState) (did : Nat) : Option DataObject :=
  s.dataStore.find? (fun d => d.data_id == did)

/-- Look up a data row by `(org_id, content_hash)`, the reuse key of
spec section 4.1. -/
def findDataByHash (s : DBState) (org : Nat) (h : String) : Option DataObject :=
  s.dataStore.find? (fun d => d.org_id == org && d.content_hash == h)

/-- The ordered receipt sequence of one pointer (chronological: receipts
are stored in append order). -/
def receiptsFor (s : DBState) (pid : Nat) : List Receipt :=
  s.receipts.filter (fun r => r.pointer_id == pid)

/-- Hash of the most recent receipt in `rs`, or `prev` when `rs` is empty. -/
def lastHashFrom : Option String → List Receipt → Option String
  | prev, [] => prev
  | _, r :: rest => lastHashFrom (some r.receipt_hash) rest

/-- Hash of the most recent receipt of a sequence, if any — the value
spec section 4.2 stores into the next receipt's `prev_hash`. -/
def lastHash (rs : List Receipt) : Option String :=
  lastHashFrom none rs

/-- The schema CHECK `signature_algorithm IN ('ED25519', 'ML-DSA-65')`. -/
def sigAlgValid (a : String) : Bool :=
  a == "ED25519" || a == "ML-DSA-65"

/-- The CHECK constraints of `governance_receipts`: non-empty receipt hash,
non-empty signature bytes, known algorithm tag. -/
def receiptRowValid (r : Receipt) : Bool :=
  sqlNonEmpty r.receipt_hash && !r.signature.isEmpty && sigAlgValid r.signature_algorithm

/-- Modelled from the spec: section 4.2 `append` — look up the most recent
receipt for the pointer (or none), set `prev_hash` accordingly, hash and
sign the canonical form, and persist, all inside the caller's transaction.
A failed signing step aborts with `signingFailure`; a row violating the
`governance_receipts` CHECK constraints is refused by the database
(`storageFailure`).  The backend code for this is not in the source tree. -/
def appendReceipt (env : CryptoEnv) (s : DBState) (pid org : Nat)
    (op : ReceiptOperation) (now : Nat) : Except VetoError (Receipt × DBState) :=
  let prev := lastHash (receiptsFor s pid)
  let digest := env.hashFn op pid prev now
  match env.signFn digest with
  | none => .error .signingFailure
  | some sig =>
      let r : Receipt :=
        { receipt_id := s.nextId, pointer_id := pid, org_id := org,
          operation := op, receipt_hash := digest, signature := sig,
          signature_algorithm := env.sigAlg, prev_hash := prev, timestamp := now }
      if receiptRowValid r then
        .ok (r, { s with nextId := s.nextId + 1, receipts := s.receipts ++ [r] })
      else .error .storageFailure

/-- The audit row inserted by the trigger `log_pointer_status_change` of
`database/schema.sql` when a pointer's status changes. -/
def statusChangeEvent (org pid : Nat) (old_st new_st : PointerStatus)
    (reason : Option String) (now : Nat) : AuditEvent :=
  { org_id := some org, pointer_id := some pid, receipt_id := none,
    event_type := "pointer_status_change",
    event_data := .statusChange old_st new_st reason, timestamp := now }

/-- The AFTER UPDATE effect on one `pointers` row targeted by an orphan
call: set status, orphaned-at and reason; every other row is untouched. -/
def orphanUpdate (pid now : Nat) (reason : String) (q : Pointer) : Pointer :=
  if q.pointer_id == pid then
    { q with status := .orphaned, orphaned_at := some now,
             orphan_reason := some reason }
  else q

/-- The row inserts of `create` before receipting: reuse the DataObject
keyed by `(org, content_hash)` when it exists, otherwise create it; then
insert a fresh pointer in `active` status referencing it (spec 4.1). -/
def createRows (s : DBState) (now org : Nat) (subject chash : String)
    (payload : Option (List Nat)) : Pointer × DBState :=
  match findDataByHash s org chash with
  | some d =>
      ({ pointer_id := s.nextId, org_id := org, data_id := d.data_id,
         subject_id := subject, status := .active, created_at := now,
         orphaned_at := none, orphan_reason := none },
       { s with nextId := s.nextId + 1,
                pointers := s.pointers ++
                  [{ pointer_id := s.nextId, org_id := org, data_id := d.data_id,
                     subject_id := subject, status := .active, created_at := now,
                     orphaned_at := none, orphan_reason := none }] })
  | none =>
      ({ pointer_id := s.nextId + 1, org_id := org, data_id := s.nextId,
         subject_id := subject, status := .active, created_at := now,
         orphaned_at := none, orphan_reason := none },
       { s with nextId := s.nextId + 2,
                dataStore := s.dataStore ++
                  [{ data_id := s.nextId, org_id := org, subject_id := subject,
                     content_hash := chash, encrypted_payload := payload,
                     created_at := now }],
                pointers := s.pointers ++
                  [{ pointer_id := s.nextId + 1, org_id := org, data_id := s.nextId,
                     subject_id := subject, status := .active, created_at := now,
                     orphaned_at := none, orphan_reason := none }] })

/-- The audit row recorded when a pointer is created. -/
def createdEvent (org pid rid now : Nat) : AuditEvent :=
  { org_id := some org, pointer_id := some pid, receipt_id := some rid,
    event_type := "pointer_created", event_data := .created, timestamp := now }

/-- Modelled from the spec: section 4.1 `create` — validate, create or
reuse the DataObject for `(org, content_hash)`, insert an active pointer,
then append the "create" receipt (section 4.2) and the audit row, all as
one atomic transaction: any failure leaves no state change.  The schema
CHECK constraints of `data_store` and `pointers` gate the inserts.  The
backend handler is not in the source tree. -/
def createOp (env : CryptoEnv) (s : DBState) (now org : Nat)
    (subject chash : String) (payload : Option (List Nat)) :
    Except VetoError (Pointer × Receipt × DBState) :=
  if subject = "" ∨ chash = "" then .error .validationError
  else if !(sqlNonEmpty subject && sqlNonEmpty chash) then .error .storageFailure
  else
    match appendReceipt env (createRows s now org subject chash payload).2
        (createRows s now org subject chash payload).1.pointer_id org .create now with
    | .error e => .error e
    | .ok (r, s3) =>
        .ok ((createRows s now org subject chash payload).1, r,
             { s3 with auditLog := s3.auditLog ++
                 [createdEvent org
                   (createRows s now org subject chash payload).1.pointer_id
                   r.receipt_id now] })

/-- Modelled from the spec: section 4.1 `orphan` — `NotFound` when the
pointer does not exist, `AlreadyOrphaned` when its status is already
orphaned, else transition `active → orphaned`, set `orphaned_at` and the
reason, append the chained "orphan" receipt, and let the schema trigger
`log_pointer_status_change` insert the audit row; atomic as one unit, so
any failure leaves no state change.  The backend handler is not in the
source tree. -/
def orphanOp (env : CryptoEnv) (s : DBState) (now pid : Nat) (reason : String) :
    Except VetoError (Pointer × Receipt × DBState) :=
  match findPointer s pid with
  | none => .error .notFound
  | some p =>
    match p.status with
    | .orphaned => .error (.alreadyOrphaned p.orphaned_at)
    | .active =>
        let s1 := { s with pointers := s.pointers.map (orphanUpdate pid now reason) }
        match appendReceipt env s1 pid p.org_id .orphan now with
        | .error e => .error e
        | .ok (r, s2) =>
            let ev := statusChangeEvent p.org_id pid p.status .orphaned (some reason) now
            .ok (orphanUpdate pid now reason p, r,
                 { s2 with auditLog := s2.auditLog ++ [ev] })

/-- Result of the enforcement check of spec section 4.3. -/
inductive CheckResult where
  | ok
  | denied (reason : String) (orphaned_at : Option Nat)
deriving DecidableEq

/-- Modelled from the spec: section 4.3 `check` — pure and side-effect
free; `Ok` iff the pointer's status is active; `Denied` carries the stable
reason code `pointer_orphaned` plus the orphaning timestamp.  The backend
guard is not in the source tree; the `active_pointers` view of
`database/schema.sql` restricts resolvable rows to `status = 'active'`. -/
def checkGuard (p : Pointer) : CheckResult :=
  match p.status with
  | .active => .ok
  | .orphaned => .denied "pointer_orphaned" p.orphaned_at

/-- Result of a resolution attempt. -/
inductive ResolveResult where
  | resolved (d : DataObject)
  | denied (reason : String) (orphaned_at : Option Nat)
  | notFound
deriving DecidableEq

/-- The audit row recorded for a resolution attempt. -/
def resolutionEvent (org pid : Option Nat) (allowed : Bool)
    (reason : Option String) (now : Nat) : AuditEvent :=
  { org_id := org, pointer_id := pid, receipt_id := none,
    event_type := "pointer_resolution",
    event_data := .resolution allowed reason, timestamp := now }

/-- Modelled from the spec: section 4.3 `resolve` — fetch the pointer,
apply `checkGuard`, fetch the DataObject on success; append an AuditEvent
on success and on denial alike; fail closed (a missing pointer or data row
denies, never allows).  The backend handler is not in the source tree. -/
def resolveOp (s : DBState) (now pid : Nat) : ResolveResult × DBState :=
  match findPointer s pid with
  | none =>
      (.notFound,
       { s with auditLog :=
           s.auditLog ++ [resolutionEvent none none false (some "not_found") now] })
  | some p =>
    match checkGuard p with
    | .denied reason oat =>
        (.denied reason oat,
         { s with auditLog :=
             s.auditLog ++
               [resolutionEvent (some p.org_id) (some pid) false (some reason) now] })
    | .ok =>
      match findData s p.data_id with
      | some d =>
          (.resolved d,
           { s with auditLog :=
               s.auditLog ++ [resolutionEvent (some p.org_id) (some pid) true none now] })
      | none =>
          (.notFound,
           { s with auditLog :=
               s.auditLog ++
                 [resolutionEvent (some p.org_id) (some pid) false (some "not_found") now] })

/-- The operations of the core, as invoked by the transport layer. -/
inductive Op where
  | createP (now org : Nat) (subject chash : String) (payload : Option (List Nat))
  | orphanP (now pid : Nat) (reason : String)
  | resolveP (now pid : Nat)

/-- One observable transition of the store: a failed create or orphan is
all-or-nothing and leaves the state unchanged (spec section 5). -/
def step (env : CryptoEnv) (s : DBState) : Op → DBState
  | .createP now org subject chash payload =>
      match createOp env s now org subject chash payload with
      | .ok x => x.2.2
      | .error _ => s
  | .orphanP now pid reason =>
      match orphanOp env s now pid reason with
      | .ok x => x.2.2
      | .error _ => s
  | .resolveP now pid => (resolveOp s now pid).2

/-- Run a sequence of operations. -/
def execSeq (env : CryptoEnv) (s : DBState) : List Op → DBState
  | [] => s
  | op :: ops => execSeq env (step env s op) ops

/-- The hash-chain predicate: walking the sequence, every receipt's
`prev_hash` must equal the hash of its predecessor, starting from `prev`. -/
def chainFrom : Option String → List Receipt → Bool
  | _, [] => true
  | prev, r :: rest => r.prev_hash == prev && chainFrom (some r.receipt_hash) rest

/-- A pointer's full receipt sequence is well chained: the first receipt
has `prev_hash = null` and every later one links to its predecessor. -/
def chainOk (rs : List Receipt) : Bool :=
  chainFrom none rs

/-- All receipt chains in the store are valid. -/
def chainsValid (s : DBState) : Prop :=
  ∀ pid, chainOk (receiptsFor s pid) = true

/-- The schema CHECK `orphaned_at_valid` of the `pointers` table:
`orphaned_at` is set iff the status is orphaned. -/
def orphanedAtValid (p : Pointer) : Bool :=
  match p.status, p.orphaned_at with
  | .orphaned, some _ => true
  | .active, none => true
  | _, _ => false

/-- Every pointer row satisfies the `orphaned_at_valid` CHECK. -/
def pointersValid (s : DBState) : Prop :=
  ∀ p ∈ s.pointers, orphanedAtValid p = true

/-- Every stored receipt is signed: non-empty signature bytes together
with a valid algorithm tag (the `governance_receipts` CHECK constraints). -/
def receiptsSigned (s : DBState) : Prop :=
  ∀ r ∈ s.receipts, r.signature ≠ [] ∧ sigAlgValid r.signature_algorithm = true

/-! ### Frontend `apiCall` helper, from `config.js` -/

/-- A parsed JSON response body.  `errField` is the `error` member when the
body carries one as a string (absent or non-string members behave as a
missing field after the JavaScript truthiness test, except the empty
string, which is falsy and modelled explicitly); `rest` stands for the
remaining members. -/
structure JsonBody where
  errField : Option String
  rest : List (String × String)
deriving DecidableEq

/-- The observable outcome of `fetch` + `response.json()` inside `apiCall`:
the network request may reject, the body may fail to parse, or both
succeed yielding a status code and a parsed body.  `msg` is the message of
the thrown exception. -/
inductive FetchOutcome where
  | fetchFailed (msg : String)
  | jsonFailed (status : Nat) (msg : String)
  | jsonOk (status : Nat) (body : JsonBody)
deriving DecidableEq

/-- The object `apiCall` returns to its caller: `config.js` returns
`{success: true, data, status}` on the happy path and
`{success: false, error}` (plus `demo: true` in demo mode) otherwise. -/
structure ApiResult where
  success : Bool
  data : Option JsonBody
  error : Option String
  status : Option Nat
  demo : Bool
deriving DecidableEq

/-- `response.ok` per the fetch standard: status in the range 200..299. -/
def statusOk (status : Nat) : Bool :=
  200 ≤ status && status < 300

/-- The failure object built in the catch block of `apiCall`: the `demo`
flag is attached exactly when `CONFIG.DEMO_MODE` is set. -/
def apiFailure (demoMode : Bool) (msg : String) : ApiResult :=
  { success := false, data := none, error := some msg, status := none,
    demo := demoMode }

/-- The message of the error thrown for a non-ok response:
`data.error || 'API error: ' + response.status` — the `error` member when
it is truthy, else the fallback text. -/
def httpErrorMsg (errField : Option String) (status : Nat) : String :=
  match errField with
  | some e => if e = "" then "API error: " ++ toString status else e
  | none => "API error: " ++ toString status

/-- The frontend helper `apiCall` of `config.js`, as a total function of
the fetch outcome: every await sits inside the try block and every path of
the catch block returns, so no exception escapes; a completed fetch whose
body parsed and whose status is ok yields the success object, every other
path yields the failure object from the catch block. -/
def apiCall (demoMode : Bool) (outcome : FetchOutcome) : ApiResult :=
  match outcome with
  | .fetchFailed msg => apiFailure demoMode msg
  | .jsonFailed _ msg => apiFailure demoMode msg
  | .jsonOk status body =>
      if statusOk status then
        { success := true, data := some body, error := none,
          status := some status, demo := false }
      else apiFailure demoMode (httpErrorMsg body.errField status)

/-- True exactly when the fetch completed, the body parsed as JSON, and
the HTTP status was ok. -/
def fetchParsedAndOk : FetchOutcome → Bool
  | .jsonOk st _ => statusOk st
  | _ => false

/-! ### Concrete demo fixtures for witnesses -/

/-- A deterministic crypto environment: constant hash, constant one-byte
signature, the schema's default algorithm tag. -/
def demoEnv : CryptoEnv :=
  { hashFn := fun _ _ _ _ => "h", signFn := fun _ => some [1],
    sigAlg := "ED25519" }

/-- A crypto environment whose signing key is unavailable. -/
def demoFailEnv : CryptoEnv :=
  { hashFn := fun _ _ _ _ => "h", signFn := fun _ => none,
    sigAlg := "ED25519" }

/-- A demo data object, as in the spec's example scenario. -/
def demoData : DataObject :=
  { data_id := 0, org_id := 7, subject_id := "user_demo_001",
    content_hash := "sha3_512_demo_hash_12345", encrypted_payload := none,
    created_at := 1 }

/-- A demo active pointer referencing `demoData`. -/
def demoActivePtr : Pointer :=
  { pointer_id := 1, org_id := 7, data_id := 0, subject_id := "user_demo_001",
    status := .active, created_at := 1, orphaned_at := none,
    orphan_reason := none }

/-- A store holding one data object and one active pointer. -/
def demoState : DBState :=
  { nextId := 2, dataStore := [demoData], pointers := [demoActivePtr],
    receipts := [], auditLog := [] }

/-- `demoActivePtr` after being orphaned at time 5. -/
def demoOrphanedPtr : Pointer :=
  { demoActivePtr with status := .orphaned, orphaned_at := some 5,
                       orphan_reason := some "user_consent_revoked" }

/-- A store holding one data object and one orphaned pointer. -/
def demoOrphanedState : DBState :=
  { demoState with pointers := [demoOrphanedPtr] }

/-- The receipt appended by orphaning the demo pointer at time 5. -/
def demoReceipt : Receipt :=
  { receipt_id := 2, pointer_id := 1, org_id := 7, operation := .orphan,
    receipt_hash := "h", signature := [1], signature_algorithm := "ED25519",
    prev_hash := none, timestamp := 5 }

/-- The full store after orphaning the demo pointer at time 5. -/
def demoAfterOrphan : DBState :=
  { nextId := 3, dataStore := [demoData], pointers := [demoOrphanedPtr],
    receipts := [demoReceipt],
    auditLog := [statusChangeEvent 7 1 .active .orphaned
                   (some "user_consent_revoked") 5] }

/-- Decidability of the pointer CHECK invariant on a concrete store. -/
instance (s : DBState) : Decidable (pointersValid s) :=
  inferInstanceAs (Decidable (∀ p ∈ s.pointers, orphanedAtValid p = true))

/-- Decidability of the signed-receipts invariant on a concrete store. -/
instance (s : DBState) : Decidable (receiptsSigned s) :=
  inferInstanceAs (Decidable (∀ r ∈ s.receipts,
    r.signature ≠ [] ∧ sigAlgValid r.signature_algorithm = true))

/-! ### List helpers -/

theorem find?_append_some {α : Type} (q : α → Bool) (l₁ l₂ : List α) (a : α)
    (h : l₁.find? q = some a) : (l₁ ++ l₂).find? q = some a := by
  rw [List.find?_append, h]
  rfl

theorem find?_map_id_preserving (l : List Pointer) (t : Nat) (g : Pointer → Pointer)
    (hg : ∀ p, (g p).pointer_id = p.pointer_id) :
    (l.map g).find? (fun p => p.pointer_id == t) =
      (l.find? (fun p => p.pointer_id == t)).map g := by
  rw [List.find?_map]
  have hpred : ((fun p : Pointer => p.pointer_id == t) ∘ g) =
      (fun p : Pointer => p.pointer_id == t) := by
    funext p
    simp [Function.comp, hg p]
  rw [hpred]

theorem chainFrom_append (rs : List Receipt) (prev : Option String) (r : Receipt)
    (h : chainFrom prev rs = true) (hr : r.prev_hash = lastHashFrom prev rs) :
    chainFrom prev (rs ++ [r]) = true := by
  induction rs generalizing prev with
  | nil =>
      simp only [lastHashFrom] at hr
      simp [chainFrom, hr]
  | cons a rest ih =>
      simp only [chainFrom, Bool.and_eq_true] at h
      simp only [lastHashFrom] at hr
      rw [List.cons_append]
      simp only [chainFrom, Bool.and_eq_true]
      exact ⟨h.1, ih (some a.receipt_hash) h.2 hr⟩

/-! ### Specification lemmas for the operations -/

theorem appendReceipt_ok (env : CryptoEnv) (s : DBState) (pid org : Nat)
    (op : ReceiptOperation) (now : Nat) (r : Receipt) (s' : DBState)
    (h : appendReceipt env s pid org op now = .ok (r, s')) :
    s'.dataStore = s.dataStore ∧ s'.pointers = s.pointers ∧
    s'.auditLog = s.auditLog ∧ s'.receipts = s.receipts ++ [r] ∧
    r.pointer_id = pid ∧ r.operation = op ∧
    r.prev_hash = lastHash (receiptsFor s pid) ∧
    receiptRowValid r = true := by
  unfold appendReceipt at h
  dsimp only at h
  split at h
  · exact absurd h (by simp)
  · split at h
    · injection h with h'
      injection h' with h1 h2
      subst h1; subst h2
      refine ⟨rfl, rfl, rfl, rfl, rfl, rfl, rfl, ?_⟩
      assumption
    · exact absurd h (by simp)

theorem appendReceipt_sign_fail (env : CryptoEnv) (s : DBState) (pid org : Nat)
    (op : ReceiptOperation) (now : Nat)
    (h : env.signFn (env.hashFn op pid (lastHash (receiptsFor s pid)) now) = none) :
    appendReceipt env s pid org op now = .error .signingFailure := by
  unfold appendReceipt
  dsimp only
  rw [h]

theorem orphanOp_ok (env : CryptoEnv) (s : DBState) (now pid : Nat) (reason : String)
    (p : Pointer) (r : Receipt) (s' : DBState)
    (h : orphanOp env s now pid reason = .ok (p, r, s')) :
    ∃ q, findPointer s pid = some q ∧ q.status = .active ∧
      p = orphanUpdate pid now reason q ∧
      s'.dataStore = s.dataStore ∧
      s'.pointers = s.pointers.map (orphanUpdate pid now reason) ∧
      s'.receipts = s.receipts ++ [r] ∧
      s'.auditLog = s.auditLog ++
        [statusChangeEvent q.org_id pid .active .orphaned (some reason) now] ∧
      r.pointer_id = pid ∧ r.operation = .orphan ∧
      r.prev_hash = lastHash (receiptsFor s pid) ∧
      receiptRowValid r = true := by
  unfold orphanOp at h
  dsimp only at h
  split at h
  · exact absurd h (by simp)
  · rename_i q hq
    split at h
    · exact absurd h (by simp)
    · rename_i hst
      split at h
      · exact absurd h (by simp)
      · rename_i r' s₂ happ
        refine ⟨q, hq, hst, ?_⟩
        injection h with h'
        injection h' with h1 h2
        injection h2 with h2 h3
        subst h1; subst h2; subst h3
        have hspec := appendReceipt_ok _ _ _ _ _ _ _ _ happ
        obtain ⟨hd, hp, ha, hr, hrp, hro, hprev, hval⟩ := hspec
        refine ⟨rfl, hd, hp, hr, ?_, hrp, hro, hprev, hval⟩
        rw [ha, hst]

theorem orphanOp_already (env : CryptoEnv) (s : DBState) (now pid : Nat)
    (reason : String) (p : Pointer)
    (h : findPointer s pid = some p) (ho : p.status = .orphaned) :
    orphanOp env s now pid reason = .error (.alreadyOrphaned p.orphaned_at) := by
  unfold orphanOp
  rw [h]
  dsimp only
  rw [ho]

theorem createRows_spec (s : DBState) (now org : Nat) (subject chash : String)
    (payload : Option (List Nat)) :
    ((createRows s now org subject chash payload).2.dataStore = s.dataStore ∨
      ∃ d, (createRows s now org subject chash payload).2.dataStore = s.dataStore ++ [d]) ∧
    (createRows s now org subject chash payload).2.pointers =
      s.pointers ++ [(createRows s now org subject chash payload).1] ∧
    (createRows s now org subject chash payload).2.receipts = s.receipts ∧
    (createRows s now org subject chash payload).2.auditLog = s.auditLog ∧
    (createRows s now org subject chash payload).1.status = .active ∧
    (createRows s now org subject chash payload).1.orphaned_at = none := by
  unfold createRows
  split
  · exact ⟨Or.inl rfl, rfl, rfl, rfl, rfl, rfl⟩
  · exact ⟨Or.inr ⟨_, rfl⟩, rfl, rfl, rfl, rfl, rfl⟩

theorem createOp_ok (env : CryptoEnv) (s : DBState) (now org : Nat)
    (subject chash : String) (payload : Option (List Nat))
    (p : Pointer) (r : Receipt) (s' : DBState)
    (h : createOp env s now org subject chash payload = .ok (p, r, s')) :
    (s'.dataStore = s.dataStore ∨ ∃ d, s'.dataStore = s.dataStore ++ [d]) ∧
    s'.pointers = s.pointers ++ [p] ∧
    s'.receipts = s.receipts ++ [r] ∧
    (∃ e, s'.auditLog = s.auditLog ++ [e]) ∧
    p.status = .active ∧ p.orphaned_at = none ∧
    r.pointer_id = p.pointer_id ∧
    r.prev_hash = lastHash (receiptsFor s p.pointer_id) ∧
    receiptRowValid r = true := by
  unfold createOp at h
  split at h
  · exact absurd h (by simp)
  · split at h
    · exact absurd h (by simp)
    · split at h
      · exact absurd h (by simp)
      · rename_i r' s₃ happ
        injection h with h'
        injection h' with h1 h2
        injection h2 with h2 h3
        subst h1; subst h2; subst h3
        obtain ⟨hds, hps, hrs, has, hsta, hoat⟩ :=
          createRows_spec s now org subject chash payload
        obtain ⟨hd3, hp3, ha3, hr3, hrp, _, hprev, hval⟩ :=
          appendReceipt_ok _ _ _ _ _ _ _ _ happ
        refine ⟨?_, ?_, ?_, ?_, hsta, hoat, hrp, ?_, hval⟩
        · dsimp only
          rw [hd3]
          exact hds
        · dsimp only
          rw [hp3, hps]
        · dsimp only
          rw [hr3, hrs]
        · exact ⟨_, by dsimp only; rw [ha3, has]⟩
        · rw [hprev]
          unfold receiptsFor
          rw [hrs]

theorem resolveOp_state (s : DBState) (now pid : Nat) :
    (resolveOp s now pid).2.dataStore = s.dataStore ∧
    (resolveOp s now pid).2.pointers = s.pointers ∧
    (resolveOp s now pid).2.receipts = s.receipts ∧
    ∃ e, (resolveOp s now pid).2.auditLog = s.auditLog ++ [e] := by
  unfold resolveOp
  split
  · exact ⟨rfl, rfl, rfl, _, rfl⟩
  · split
    · exact ⟨rfl, rfl, rfl, _, rfl⟩
    · split
      · exact ⟨rfl, rfl, rfl, _, rfl⟩
      · exact ⟨rfl, rfl, rfl, _, rfl⟩

/-! ### Transition lemmas -/

theorem orphanUpdate_id (pid now : Nat) (reason : String) (q : Pointer) :
    (orphanUpdate pid now reason q).pointer_id = q.pointer_id := by
  unfold orphanUpdate
  split <;> rfl

theorem findPointer_id (s : DBState) (pid : Nat) (p : Pointer)
    (h : findPointer s pid = some p) : p.pointer_id = pid := by
  have := List.find?_some h
  simpa using this

theorem findPointer_step (env : CryptoEnv) (s : DBState) (op : Op) (pid : Nat) (p : Pointer)
    (h : findPointer s pid = some p) :
    ∃ p', findPointer (step env s op) pid = some p' ∧
      (p' = p ∨ (p.status = .active ∧ p'.status = .orphaned)) := by
  cases op with
  | createP now org subject chash payload =>
      cases hc : createOp env s now org subject chash payload with
      | error e =>
          refine ⟨p, ?_, Or.inl rfl⟩
          simp only [step, hc]
          exact h
      | ok x =>
          obtain ⟨_, hps, _⟩ :=
            createOp_ok env s now org subject chash payload x.1 x.2.1 x.2.2 hc
          refine ⟨p, ?_, Or.inl rfl⟩
          simp only [step, hc]
          unfold findPointer at h ⊢
          rw [hps]
          exact find?_append_some _ _ _ _ h
  | orphanP now pid' reason =>
      cases hc : orphanOp env s now pid' reason with
      | error e =>
          refine ⟨p, ?_, Or.inl rfl⟩
          simp only [step, hc]
          exact h
      | ok x =>
          obtain ⟨q, hq, hqa, _, _, hpts, _⟩ :=
            orphanOp_ok env s now pid' reason x.1 x.2.1 x.2.2 hc
          refine ⟨orphanUpdate pid' now reason p, ?_, ?_⟩
          · simp only [step, hc]
            unfold findPointer at h ⊢
            rw [hpts, find?_map_id_preserving _ _ _ (orphanUpdate_id pid' now reason), h]
            rfl
          · by_cases hid : p.pointer_id = pid'
            · have hpid : p.pointer_id = pid := findPointer_id s pid p h
              have hq' : q = p := by
                rw [← hid, hpid] at hq
                rw [h] at hq
                injection hq with hq
                exact hq.symm
              refine Or.inr ⟨by rw [← hq']; exact hqa, ?_⟩
              unfold orphanUpdate
              simp [hid]
            · left
              unfold orphanUpdate
              simp [hid]
  | resolveP now pid' =>
      obtain ⟨_, hpts, _, _⟩ := resolveOp_state s now pid'
      refine ⟨p, ?_, Or.inl rfl⟩
      simp only [step]
      unfold findPointer at h ⊢
      rw [hpts]
      exact h

theorem findPointer_execSeq (env : CryptoEnv) (ops : List Op) (s : DBState)
    (pid : Nat) (p : Pointer) (h : findPointer s pid = some p) :
    ∃ p', findPointer (execSeq env s ops) pid = some p' ∧
      (p' = p ∨ (p.status = .active ∧ p'.status = .orphaned)) := by
  induction ops generalizing s p with
  | nil => exact ⟨p, h, Or.inl rfl⟩
  | cons op ops ih =>
      obtain ⟨p₁, h₁, hd₁⟩ := findPointer_step env s op pid p h
      obtain ⟨p₂, h₂, hd₂⟩ := ih (step env s op) p₁ h₁
      refine ⟨p₂, h₂, ?_⟩
      rcases hd₁ with rfl | ⟨ha, ho⟩
      · exact hd₂
      · rcases hd₂ with rfl | ⟨ha₂, _⟩
        · exact Or.inr ⟨ha, ho⟩
        · rw [ho] at ha₂
          exact absurd ha₂ (by simp)

theorem orphaned_preserved (env : CryptoEnv) (ops : List Op) (s : DBState)
    (pid : Nat) (p : Pointer) (h : findPointer s pid = some p)
    (ho : p.status = .orphaned) :
    findPointer (execSeq env s ops) pid = some p := by
  induction ops generalizing s with
  | nil => exact h
  | cons op ops ih =>
      obtain ⟨p₁, h₁, hd⟩ := findPointer_step env s op pid p h
      rcases hd with rfl | ⟨ha, _⟩
      · exact ih (step env s op) h₁
      · rw [ho] at ha
        exact absurd ha (by simp)

theorem step_frame (env : CryptoEnv) (s : DBState) (op : Op) :
    ((step env s op).dataStore = s.dataStore ∨
      ∃ d, (step env s op).dataStore = s.dataStore ++ [d]) ∧
    (∃ es, (step env s op).auditLog = s.auditLog ++ es) ∧
    ((step env s op).receipts = s.receipts ∨
      ∃ r, (step env s op).receipts = s.receipts ++ [r] ∧
        r.prev_hash = lastHash (receiptsFor s r.pointer_id) ∧
        receiptRowValid r = true) ∧
    (∀ p ∈ (step env s op).pointers, p ∈ s.pointers ∨ orphanedAtValid p = true) := by
  cases op with
  | createP now org subject chash payload =>
      cases hc : createOp env s now org subject chash payload with
      | error e =>
          have hst : step env s (.createP now org subject chash payload) = s := by
            simp only [step, hc]
          rw [hst]
          exact ⟨Or.inl rfl, ⟨[], by rw [List.append_nil]⟩, Or.inl rfl,
                 fun p hp => Or.inl hp⟩
      | ok x =>
          obtain ⟨hds, hps, hrs, ⟨e, has⟩, hsta, hoat, hrp, hprev, hval⟩ :=
            createOp_ok env s now org subject chash payload x.1 x.2.1 x.2.2 hc
          simp only [step, hc]
          refine ⟨hds, ⟨[e], has⟩, Or.inr ⟨x.2.1, hrs, ?_, hval⟩, ?_⟩
          · rw [hrp]
            exact hprev
          · intro p hp
            rw [hps] at hp
            rcases List.mem_append.mp hp with hp | hp
            · exact Or.inl hp
            · right
              rw [List.mem_singleton.mp hp]
              unfold orphanedAtValid
              rw [hsta, hoat]
  | orphanP now pid reason =>
      cases hc : orphanOp env s now pid reason with
      | error e =>
          have hst : step env s (.orphanP now pid reason) = s := by
            simp only [step, hc]
          rw [hst]
          exact ⟨Or.inl rfl, ⟨[], by rw [List.append_nil]⟩, Or.inl rfl,
                 fun p hp => Or.inl hp⟩
      | ok x =>
          obtain ⟨q, hq, hqa, _, hds, hpts, hrc, hal, hrp, _, hprev, hval⟩ :=
            orphanOp_ok env s now pid reason x.1 x.2.1 x.2.2 hc
          simp only [step, hc]
          refine ⟨Or.inl hds, ⟨_, hal⟩, Or.inr ⟨x.2.1, hrc, ?_, hval⟩, ?_⟩
          · rw [hrp]
            exact hprev
          · intro p hp
            rw [hpts] at hp
            obtain ⟨q', hq', hq'e⟩ := List.mem_map.mp hp
            by_cases hid : (q'.pointer_id == pid) = true
            · right
              rw [← hq'e]
              unfold orphanUpdate orphanedAtValid
              rw [if_pos hid]
            · left
              rw [← hq'e]
              unfold orphanUpdate
              rw [if_neg hid]
              exact hq'
  | resolveP now pid =>
      obtain ⟨hds, hpts, hrc, e, hal⟩ := resolveOp_state s now pid
      simp only [step]
      refine ⟨Or.inl hds, ⟨[e], hal⟩, Or.inl hrc, ?_⟩
      intro p hp
      rw [hpts] at hp
      exact Or.inl hp

/-! ### Invariant preservation -/

theorem receiptRowValid_signed (r : Receipt) (h : receiptRowValid r = true) :
    r.signature ≠ [] ∧ sigAlgValid r.signature_algorithm = true := by
  unfold receiptRowValid at h
  simp only [Bool.and_eq_true, Bool.not_eq_true'] at h
  refine ⟨?_, h.2⟩
  intro he
  rw [he] at h
  exact absurd h.1.2 (by simp [List.isEmpty])

theorem chainsValid_step (env : CryptoEnv) (s : DBState) (op : Op)
    (h : chainsValid s) : chainsValid (step env s op) := by
  obtain ⟨_, _, hrc, _⟩ := step_frame env s op
  intro pid
  rcases hrc with hrc | ⟨r, hrc, hprev, _⟩
  · unfold chainOk receiptsFor
    rw [hrc]
    exact h pid
  · unfold chainOk receiptsFor
    rw [hrc, List.filter_append]
    by_cases hid : (r.pointer_id == pid) = true
    · rw [show (List.filter (fun r => r.pointer_id == pid) [r]) = [r] by
        simp [List.filter, hid]]
      apply chainFrom_append
      · exact h pid
      · rw [hprev]
        have : r.pointer_id = pid := by simpa using hid
        rw [this]
        rfl
    · rw [show (List.filter (fun r => r.pointer_id == pid) [r]) = [] by
        simp [List.filter, hid], List.append_nil]
      exact h pid

theorem pointersValid_step (env : CryptoEnv) (s : DBState) (op : Op)
    (h : pointersValid s) : pointersValid (step env s op) := by
  obtain ⟨_, _, _, hpts⟩ := step_frame env s op
  intro p hp
  rcases hpts p hp with hmem | hvalid
  · exact h p hmem
  · exact hvalid

theorem receiptsSigned_step (env : CryptoEnv) (s : DBState) (op : Op)
    (h : receiptsSigned s) : receiptsSigned (step env s op) := by
  obtain ⟨_, _, hrc, _⟩ := step_frame env s op
  intro r hr
  rcases hrc with hrc | ⟨r', hrc, _, hval⟩
  · rw [hrc] at hr
    exact h r hr
  · rw [hrc] at hr
    rcases List.mem_append.mp hr with hr | hr
    · exact h r hr
    · rw [List.mem_singleton.mp hr]
      exact receiptRowValid_signed r' hval

theorem appendReceipt_no_validation (env : CryptoEnv) (s : DBState)
    (pid org : Nat) (op : ReceiptOperation) (now : Nat) :
    appendReceipt env s pid org op now ≠ .error .validationError := by
  unfold appendReceipt
  dsimp only
  split
  · simp
  · split <;> simp

theorem receiptsSigned_exec (env : CryptoEnv) (ops : List Op) (s : DBState)
    (h : receiptsSigned s) : receiptsSigned (execSeq env s ops) := by
  induction ops generalizing s with
  | nil => exact h
  | cons op ops ih => exact ih (step env s op) (receiptsSigned_step env s op h)

/-! ### The claims -/

/-- C1: once a pointer is orphaned, every subsequent `resolve` call on it
returns `Denied` with reason code `pointer_orphaned` (carrying the
orphaning timestamp), after any sequence of further core operations — no
operation re-enables resolution; and the enforcement check returns `Ok`
exactly when the pointer's status is active. -/
theorem claim_C1_orphaned_never_resolves (env : CryptoEnv) (s : DBState)
    (pid : Nat) (p q : Pointer) (ops : List Op) (now : Nat)
    (h : findPointer s pid = some p) (ho : p.status = .orphaned) :
    (checkGuard q = .ok ↔ q.status = .active) ∧
    (resolveOp (execSeq env s ops) now pid).1 =
      .denied "pointer_orphaned" p.orphaned_at := by
  constructor
  · constructor
    · intro hok
      cases hqs : q.status with
      | active => rfl
      | orphaned =>
          unfold checkGuard at hok
          rw [hqs] at hok
          exact absurd hok (by simp)
    · intro hqa
      unfold checkGuard
      rw [hqa]
  · have hp := orphaned_preserved env ops s pid p h ho
    unfold resolveOp
    rw [hp]
    dsimp only
    unfold checkGuard
    rw [ho]

theorem claim_C1_witness :
    (checkGuard demoActivePtr = .ok ↔ demoActivePtr.status = .active) ∧
    (resolveOp (execSeq demoEnv demoOrphanedState [Op.resolveP 6 1]) 7 1).1 =
      .denied "pointer_orphaned" demoOrphanedPtr.orphaned_at :=
  claim_C1_orphaned_never_resolves demoEnv demoOrphanedState 1 demoOrphanedPtr
    demoActivePtr [Op.resolveP 6 1] 7 rfl rfl

/-- C2: the receipt-chain invariant — for every pointer's ordered receipt
sequence, the first receipt's `prev_hash` is null and every later
receipt's `prev_hash` equals its predecessor's `receipt_hash` — is
preserved by every core operation, hence holds after every operation that
appends a receipt. -/
theorem claim_C2_receipt_chain (env : CryptoEnv) (s : DBState) (ops : List Op)
    (h : chainsValid s) : chainsValid (execSeq env s ops) := by
  induction ops generalizing s with
  | nil => exact h
  | cons op ops ih => exact ih (step env s op) (chainsValid_step env s op h)

theorem claim_C2_witness :
    chainsValid (execSeq demoEnv demoState
      [Op.orphanP 5 1 "user_consent_revoked",
       Op.createP 6 7 "user_demo_002" "sha3_other" none]) :=
  claim_C2_receipt_chain demoEnv demoState _ (fun _ => rfl)

/-- C3: pointer status transitions are one-directional — whenever a
pointer's status differs between a state and any later state reached by a
sequence of core operations, the old status was active and the new one is
orphaned; in particular no sequence takes a pointer from orphaned back to
active. -/
theorem claim_C3_status_monotonic (env : CryptoEnv) (s : DBState)
    (ops : List Op) (pid : Nat) (p p' : Pointer)
    (h : findPointer s pid = some p)
    (h' : findPointer (execSeq env s ops) pid = some p')
    (hne : p.status ≠ p'.status) :
    p.status = .active ∧ p'.status = .orphaned := by
  obtain ⟨p'', h'', hd⟩ := findPointer_execSeq env ops s pid p h
  rw [h'] at h''
  injection h'' with h''
  subst h''
  rcases hd with rfl | hd
  · exact absurd rfl hne
  · exact hd

theorem claim_C3_witness :
    demoActivePtr.status = .active ∧ demoOrphanedPtr.status = .orphaned :=
  claim_C3_status_monotonic demoEnv demoState
    [Op.orphanP 5 1 "user_consent_revoked"] 1 demoActivePtr demoOrphanedPtr
    rfl rfl (by decide)

/-- C4: the `orphaned_at_valid` CHECK of the `pointers` table — the
orphaning timestamp is set iff the status is orphaned — holds for every
pointer row in every state reachable from a state satisfying it, and it is
exactly the condition "status orphaned iff `orphaned_at` present". -/
theorem claim_C4_orphaned_at_iff (env : CryptoEnv) (s : DBState)
    (ops : List Op) (q : Pointer) (h : pointersValid s) :
    pointersValid (execSeq env s ops) ∧
    (orphanedAtValid q = true ↔ (q.status = .orphaned ↔ q.orphaned_at ≠ none)) := by
  constructor
  · induction ops generalizing s with
    | nil => exact h
    | cons op ops ih => exact ih (step env s op) (pointersValid_step env s op h)
  · cases hq : q.status <;> cases ha : q.orphaned_at <;>
      simp [orphanedAtValid, hq, ha]

theorem claim_C4_witness :
    pointersValid (execSeq demoEnv demoState [Op.orphanP 5 1 "x"]) ∧
    (orphanedAtValid demoActivePtr = true ↔
      (demoActivePtr.status = .orphaned ↔ demoActivePtr.orphaned_at ≠ none)) :=
  claim_C4_orphaned_at_iff demoEnv demoState [Op.orphanP 5 1 "x"]
    demoActivePtr (by decide)

/-- C5: serialized double orphan — when one of two orphan calls on the
same pointer commits first (per-pointer serialization, spec section 5),
the other returns `AlreadyOrphaned` with the first call's timestamp and
changes nothing, and exactly one receipt is appended for the pointer
across the two calls. -/
theorem claim_C5_double_orphan (env : CryptoEnv) (s : DBState) (pid : Nat)
    (now₁ now₂ : Nat) (reason₁ reason₂ : String)
    (p₁ : Pointer) (r₁ : Receipt) (s₁ : DBState)
    (h₁ : orphanOp env s now₁ pid reason₁ = .ok (p₁, r₁, s₁)) :
    orphanOp env s₁ now₂ pid reason₂ = .error (.alreadyOrphaned (some now₁)) ∧
    receiptsFor s₁ pid = receiptsFor s pid ++ [r₁] ∧
    step env s₁ (.orphanP now₂ pid reason₂) = s₁ := by
  obtain ⟨q, hq, hqa, _, _, hpts, hrc, _, hrp, _, _, _⟩ :=
    orphanOp_ok env s now₁ pid reason₁ p₁ r₁ s₁ h₁
  have hq_pid : q.pointer_id = pid := findPointer_id s pid q hq
  have hfind : findPointer s₁ pid = some (orphanUpdate pid now₁ reason₁ q) := by
    unfold findPointer
    rw [hpts, find?_map_id_preserving _ _ _ (orphanUpdate_id pid now₁ reason₁)]
    unfold findPointer at hq
    rw [hq]
    rfl
  have hbeq : (q.pointer_id == pid) = true := by simpa using hq_pid
  have hupd_st : (orphanUpdate pid now₁ reason₁ q).status = .orphaned := by
    unfold orphanUpdate
    rw [if_pos hbeq]
  have hupd_at : (orphanUpdate pid now₁ reason₁ q).orphaned_at = some now₁ := by
    unfold orphanUpdate
    rw [if_pos hbeq]
  have herr := orphanOp_already env s₁ now₂ pid reason₂ _ hfind hupd_st
  rw [hupd_at] at herr
  refine ⟨herr, ?_, ?_⟩
  · unfold receiptsFor
    rw [hrc, List.filter_append]
    congr 1
    simp [List.filter, hrp]
  · simp only [step, herr]

theorem claim_C5_witness :
    orphanOp demoEnv demoAfterOrphan 6 1 "again" =
      .error (.alreadyOrphaned (some 5)) ∧
    receiptsFor demoAfterOrphan 1 = receiptsFor demoState 1 ++ [demoReceipt] ∧
    step demoEnv demoAfterOrphan (.orphanP 6 1 "again") = demoAfterOrphan :=
  claim_C5_double_orphan demoEnv demoState 1 5 6 "user_consent_revoked" "again"
    demoOrphanedPtr demoReceipt demoAfterOrphan rfl

/-- C6: a create whose `subject_id` or `content_digest` argument is empty
fails with `ValidationError` and mutates nothing, and a create with both
arguments non-empty never fails with `ValidationError`. -/
theorem claim_C6_create_validation (env env' : CryptoEnv) (s s' : DBState)
    (now now' org org' : Nat) (subject chash subj' chash' : String)
    (payload payload' : Option (List Nat))
    (h1 : subject = "" ∨ chash = "")
    (h2 : subj' ≠ "") (h3 : chash' ≠ "") :
    (createOp env s now org subject chash payload = .error .validationError ∧
     step env s (.createP now org subject chash payload) = s) ∧
    createOp env' s' now' org' subj' chash' payload' ≠ .error .validationError := by
  constructor
  · have hv : createOp env s now org subject chash payload =
        .error .validationError := by
      unfold createOp
      rw [if_pos h1]
    exact ⟨hv, by simp only [step, hv]⟩
  · unfold createOp
    rw [if_neg (by push_neg; exact ⟨h2, h3⟩)]
    split
    · simp
    · split
      · rename_i e he
        exact fun hcontra => absurd he (by
          injection hcontra with hc
          rw [hc]
          exact appendReceipt_no_validation env' _ _ _ _ _)
      · simp

theorem claim_C6_witness :
    (createOp demoEnv demoState 1 7 "" "sha3_512_demo_hash_12345" none =
       .error .validationError ∧
     step demoEnv demoState (.createP 1 7 "" "sha3_512_demo_hash_12345" none) =
       demoState) ∧
    createOp demoEnv demoState 1 7 "user_demo_001" "sha3_512_demo_hash_12345"
      none ≠ .error .validationError :=
  claim_C6_create_validation demoEnv demoEnv demoState demoState 1 1 7 7
    "" "sha3_512_demo_hash_12345" "user_demo_001" "sha3_512_demo_hash_12345"
    none none (Or.inl rfl) (by decide) (by decide)

/-- C7: no unsigned receipt is ever persisted — in every state reachable
from one whose receipts are all signed, every stored receipt has non-empty
signature bytes and a valid stored algorithm tag; and when the signing
step fails, the orphan operation fails with `SigningFailure` and appends
no receipt (the state is unchanged). -/
theorem claim_C7_no_unsigned_receipt (env envF : CryptoEnv) (s t : DBState)
    (ops : List Op) (now pid : Nat) (reason : String) (q : Pointer)
    (h : receiptsSigned s)
    (hsig : ∀ d, envF.signFn d = none)
    (hq : findPointer t pid = some q) (hqa : q.status = .active) :
    receiptsSigned (execSeq env s ops) ∧
    orphanOp envF t now pid reason = .error .signingFailure ∧
    step envF t (.orphanP now pid reason) = t := by
  have herr : orphanOp envF t now pid reason = .error .signingFailure := by
    unfold orphanOp
    rw [hq]
    dsimp only
    rw [hqa]
    dsimp only
    rw [appendReceipt_sign_fail envF _ pid q.org_id .orphan now (hsig _)]
  exact ⟨receiptsSigned_exec env ops s h, herr, by simp only [step, herr]⟩

theorem claim_C7_witness :
    receiptsSigned (execSeq demoEnv demoState [Op.orphanP 5 1 "x"]) ∧
    orphanOp demoFailEnv demoState 5 1 "x" = .error .signingFailure ∧
    step demoFailEnv demoState (.orphanP 5 1 "x") = demoState :=
  claim_C7_no_unsigned_receipt demoEnv demoFailEnv demoState demoState
    [Op.orphanP 5 1 "x"] 5 1 "x" demoActivePtr (by decide) (fun _ => rfl)
    rfl rfl

/-- C8: a successful orphan leaves the `data_store` relation bit-identical,
and no core operation ever updates or deletes a DataObject — every step
only ever appends to `data_store`. -/
theorem claim_C8_data_object_immutable (env : CryptoEnv) (s : DBState)
    (now pid : Nat) (reason : String) (p : Pointer) (r : Receipt)
    (s' : DBState) (t : DBState) (op : Op)
    (h : orphanOp env s now pid reason = .ok (p, r, s')) :
    s'.dataStore = s.dataStore ∧
    (∃ ds, (step env t op).dataStore = t.dataStore ++ ds) := by
  obtain ⟨_, _, _, _, hds, _, _, _, _, _, _, _⟩ :=
    orphanOp_ok env s now pid reason p r s' h
  refine ⟨hds, ?_⟩
  obtain ⟨hd, _⟩ := step_frame env t op
  rcases hd with hd | ⟨d, hd⟩
  · exact ⟨[], by rw [hd, List.append_nil]⟩
  · exact ⟨[d], hd⟩

theorem claim_C8_witness :
    demoAfterOrphan.dataStore = demoState.dataStore ∧
    (∃ ds, (step demoEnv demoState (.resolveP 6 1)).dataStore =
      demoState.dataStore ++ ds) :=
  claim_C8_data_object_immutable demoEnv demoState 5 1 "user_consent_revoked"
    demoOrphanedPtr demoReceipt demoAfterOrphan demoState (.resolveP 6 1) rfl

/-- C9: the audit log records every pointer state transition and every
resolution attempt — a successful orphan appends exactly one audit event
carrying the old status (active), the new status (orphaned) and the orphan
reason; every resolve attempt appends an audit event; and every core
operation only ever appends to the audit log (events are never mutated or
removed). -/
theorem claim_C9_audit_log (env : CryptoEnv) (s : DBState) (now pid : Nat)
    (reason : String) (p : Pointer) (r : Receipt) (s' : DBState)
    (t : DBState) (now' pid' : Nat) (op : Op)
    (h : orphanOp env s now pid reason = .ok (p, r, s')) :
    (∃ q, findPointer s pid = some q ∧ q.status = .active ∧
       s'.auditLog = s.auditLog ++
         [statusChangeEvent q.org_id pid .active .orphaned (some reason) now]) ∧
    (∃ e, (resolveOp t now' pid').2.auditLog = t.auditLog ++ [e]) ∧
    (∃ es, (step env t op).auditLog = t.auditLog ++ es) := by
  obtain ⟨q, hq, hqa, _, _, _, _, hal, _, _, _, _⟩ :=
    orphanOp_ok env s now pid reason p r s' h
  refine ⟨⟨q, hq, hqa, hal⟩, ?_, ?_⟩
  · obtain ⟨_, _, _, e, ha⟩ := resolveOp_state t now' pid'
    exact ⟨e, ha⟩
  · obtain ⟨_, hes, _⟩ := step_frame env t op
    exact hes

theorem claim_C9_witness :
    (∃ q, findPointer demoState 1 = some q ∧ q.status = .active ∧
       demoAfterOrphan.auditLog = demoState.auditLog ++
         [statusChangeEvent q.org_id 1 .active .orphaned
           (some "user_consent_revoked") 5]) ∧
    (∃ e, (resolveOp demoState 6 1).2.auditLog = demoState.auditLog ++ [e]) ∧
    (∃ es, (step demoEnv demoState (.resolveP 6 1)).auditLog =
      demoState.auditLog ++ es) :=
  claim_C9_audit_log demoEnv demoState 5 1 "user_consent_revoked"
    demoOrphanedPtr demoReceipt demoAfterOrphan demoState 6 1 (.resolveP 6 1)
    rfl

/-- C10: the frontend helper `apiCall` is total over its result type — it
returns a success object exactly when the fetch completed, the body parsed
as JSON and the HTTP status was ok; every other outcome yields a failure
object whose error message is non-empty (given that thrown exceptions
carry non-empty messages); and demo mode never converts a failure into a
success. -/
theorem claim_C10_apiCall_total (demoMode : Bool) (outcome : FetchOutcome)
    (h1 : ∀ m, outcome = .fetchFailed m → m ≠ "")
    (h2 : ∀ st m, outcome = .jsonFailed st m → m ≠ "") :
    (apiCall demoMode outcome).success = fetchParsedAndOk outcome ∧
    ((apiCall demoMode outcome).success = false →
      (apiCall demoMode outcome).error ≠ none ∧
      (apiCall demoMode outcome).error ≠ some "") ∧
    (apiCall true outcome).success = (apiCall false outcome).success := by
  have hfb : ∀ st : Nat, ("API error: " ++ toString st) ≠ "" := by
    intro st hcontra
    have hlen := congrArg String.length hcontra
    rw [String.length_append] at hlen
    have h11 : ("API error: " : String).length = 11 := rfl
    have h0 : ("" : String).length = 0 := rfl
    rw [h11, h0] at hlen
    omega
  cases outcome with
  | fetchFailed m =>
      refine ⟨rfl, fun _ => ⟨by simp [apiCall, apiFailure], ?_⟩, rfl⟩
      simp only [apiCall, apiFailure]
      intro hcontra
      injection hcontra with hc
      exact h1 m rfl hc
  | jsonFailed st m =>
      refine ⟨rfl, fun _ => ⟨by simp [apiCall, apiFailure], ?_⟩, rfl⟩
      simp only [apiCall, apiFailure]
      intro hcontra
      injection hcontra with hc
      exact h2 st m rfl hc
  | jsonOk st body =>
      by_cases hok : statusOk st = true
      · refine ⟨?_, ?_, ?_⟩ <;> simp [apiCall, fetchParsedAndOk, hok]
      · have hmsg : httpErrorMsg body.errField st ≠ "" := by
          unfold httpErrorMsg
          cases he : body.errField with
          | none => exact hfb st
          | some e =>
              dsimp only
              by_cases he0 : e = ""
              · rw [if_pos he0]
                exact hfb st
              · rw [if_neg he0]
                exact he0
        refine ⟨?_, ?_, ?_⟩
        · simp [apiCall, fetchParsedAndOk, hok, apiFailure]
        · intro _
          constructor
          · simp [apiCall, hok, apiFailure]
          · simp only [apiCall, apiFailure, if_neg hok]
            intro hcontra
            injection hcontra with hc
            exact hmsg hc
        · simp [apiCall, hok, apiFailure]

theorem claim_C10_witness :
    (apiCall false (.jsonOk 403 ⟨some "pointer_orphaned", []⟩)).success =
      fetchParsedAndOk (.jsonOk 403 ⟨some "pointer_orphaned", []⟩) ∧
    ((apiCall false (.jsonOk 403 ⟨some "pointer_orphaned", []⟩)).success = false →
      (apiCall false (.jsonOk 403 ⟨some "pointer_orphaned", []⟩)).error ≠ none ∧
      (apiCall false (.jsonOk 403 ⟨some "pointer_orphaned", []⟩)).error ≠ some "") ∧
    (apiCall true (.jsonOk 403 ⟨some "pointer_orphaned", []⟩)).success =
      (apiCall false (.jsonOk 403 ⟨some "pointer_orphaned", []⟩)).success :=
  claim_C10_apiCall_total false (.jsonOk 403 ⟨some "pointer_orphaned", []⟩)
    (fun m hm => by simp at hm) (fun st m hm => by simp at hm)

end VetoFrontier
